import Mathlib

/-!
Shallow embedding of the encode job manager
(`src/model/service/encode/EncodeManageModel.ts`).

The manager's mutable fields (`lockId`, `exeQueue`, `concurrentEncodeNum`,
`waitQueue`, `runningQueue`, `idCnt`) become an explicit state record.
Each operation of the class becomes a pure function from a state to a state
together with a record of its observable effects (events emitted, files
deleted, timers installed or cleared).  Asynchronous gate acquisition is
modelled at the point it resolves; an operation's model also reports whether
it acquired a gate ticket, so that the "fails before acquiring a ticket"
claims are expressible.
-/

set_option maxHeartbeats 1000000

namespace EncodeManage

/-- Constants from the source `namespace EncodeManageModel` (spelling kept). -/
def CANCEL_ENCODE_PRIPORITY : Int := 1

def ADD_ENCODE_PRIPORITY : Int := 2

def CREATE_ENCODING_PROCESS_PRIPORITY : Int := 2

def CLEAR_QUEUE_PRIPORITY : Int := 3

def ENCODE_PRIPORITY : Int := 10

/-- `DEFAULT_TIMEOUT_RATE = 4.0` from the source. -/
def DEFAULT_TIMEOUT_RATE : Rat := 4

/-- JavaScript `Number.MAX_SAFE_INTEGER = 2^53 - 1`. -/
def maxSafeInteger : Nat := 9007199254740991

/-- `apid.AddEncodeProgramOption`: the request handed to `push`. -/
structure AddEncodeProgramOption where
  recordedId : Nat
  sourceVideoFileId : Nat
  mode : String
  parentDir : String
  directory : Option String
  removeOriginal : Bool
deriving DecidableEq, Repr

/-- `EncodeQueueItem extends apid.AddEncodeProgramOption` with `encodeId`. -/
structure EncodeQueueItem extends AddEncodeProgramOption where
  encodeId : Nat
deriving DecidableEq, Repr

/-- `RunningQueueItem`.  The `ChildProcess` handle and the `NodeJS.Timer`
handle are opaque to the manager; they are modelled as numeric handles. -/
structure RunningQueueItem where
  process : Nat
  encodeProgram : EncodeQueueItem
  isCanceld : Bool
  timerId : Nat
deriving DecidableEq, Repr

/-- `ExeQueueData`: an execution ticket of the gate. -/
structure ExeQueueData where
  id : String
  priority : Int
deriving DecidableEq, Repr

/-- The mutable fields of `EncodeManageModel`. -/
structure EncodeState where
  lockId : Option String
  exeQueue : List ExeQueueData
  concurrentEncodeNum : Int
  waitQueue : List EncodeQueueItem
  runningQueue : List RunningQueueItem
  idCnt : Nat
deriving DecidableEq, Repr

/-- The queue-insertion step of `getExecution`: scan for the first position
whose occupant has `priority < t.priority` and splice the new ticket in
there (source lines 90-98). -/
def insertExeQueue (t : ExeQueueData) : List ExeQueueData → List ExeQueueData
  | [] => [t]
  | q :: rest =>
    if q.priority < t.priority then t :: q :: rest else q :: insertExeQueue t rest

/-- `getExecution`'s synchronous effect on the gate state: insert the fresh
ticket into `exeQueue` (the waiting, timeout and event subscription are
asynchronous and not modelled). -/
def getExecutionInsert (st : EncodeState) (t : ExeQueueData) : EncodeState :=
  { st with exeQueue := insertExeQueue t st.exeQueue }

/-- `unLockExecution` (source lines 141-155): clear the lock when the caller
holds it; then, when the lock is free, pop the head of `exeQueue` and grant
it the lock (the source emits `UNLOCK_EVENT` with the popped id). -/
def unLockExecution (st : EncodeState) (id : String) : EncodeState :=
  let lockId0 : Option String := if st.lockId = some id then none else st.lockId
  if lockId0 = none then
    match st.exeQueue with
    | [] => { st with lockId := none }
    | q :: rest => { st with lockId := some q.id, exeQueue := rest }
  else
    { st with lockId := lockId0 }

/-- Result of `push`: the returned id or thrown error message, the state
after the call, and whether a gate ticket was acquired along the way. -/
structure PushOutcome where
  result : Except String Nat
  st : EncodeState
  acquiredTicket : Bool
deriving Repr

/-- `push` (source lines 162-194).  The guard throws
`CncurrentEncodeNumIsZero` (spelling as in the source) before `getExecution`
is called.  On the success path (gate acquisition modelled as resolved) the
request is cloned, the current `idCnt` is assigned as `encodeId`, `idCnt` is
reset to 0 when it equals `Number.MAX_SAFE_INTEGER` and then incremented,
and the item is appended to `waitQueue`. -/
def push (st : EncodeState) (addOption : AddEncodeProgramOption) : PushOutcome :=
  if st.concurrentEncodeNum ≤ 0 then
    { result := Except.error "CncurrentEncodeNumIsZero", st := st, acquiredTicket := false }
  else
    let encodeId := st.idCnt
    let queueItem : EncodeQueueItem :=
      { toAddEncodeProgramOption := addOption, encodeId := encodeId }
    let newIdCnt := (if st.idCnt = maxSafeInteger then 0 else st.idCnt) + 1
    { result := Except.ok encodeId,
      st := { st with waitQueue := st.waitQueue ++ [queueItem], idCnt := newIdCnt },
      acquiredTicket := true }

/-- `getRunnginQueueItem` (spelling as in the source, lines 494-498). -/
def getRunnginQueueItem (runningQueue : List RunningQueueItem) (encodeId : Nat) :
    Option RunningQueueItem :=
  runningQueue.find? (fun q => q.encodeProgram.encodeId == encodeId)

/-- `hasSamVideoFileIdItem` (spelling as in the source, lines 505-521):
does any entry of `runningQueue` or `waitQueue` carry this
`sourceVideoFileId`? -/
def hasSamVideoFileIdItem (runningQueue : List RunningQueueItem)
    (waitQueue : List EncodeQueueItem) (videoFileId : Nat) : Bool :=
  if (runningQueue.find? (fun q => q.encodeProgram.sourceVideoFileId == videoFileId)).isSome then
    true
  else if (waitQueue.find? (fun q => q.sourceVideoFileId == videoFileId)).isSome then
    true
  else
    false

/-- Result of `finalize`: the state after the call, which deadline timer was
cleared (if any), and that a `checkQueue` re-check was scheduled on the next
tick. -/
structure FinalizeOutcome where
  st : EncodeState
  clearedTimerId : Option Nat
  scheduledCheckQueue : Bool
deriving Repr

/-- `finalize` (source lines 527-548): under a `CLEAR_QUEUE_PRIPORITY`
ticket, clear the matching entry's timer when present, filter the entry out
of `runningQueue`, and schedule a queue re-check on the next tick. -/
def finalize (st : EncodeState) (encodeId : Nat) : FinalizeOutcome :=
  let queueItem := getRunnginQueueItem st.runningQueue encodeId
  { st :=
      { st with
        runningQueue := st.runningQueue.filter (fun q => q.encodeProgram.encodeId != encodeId) },
    clearedTimerId := queueItem.map (fun q => q.timerId),
    scheduledCheckQueue := true }

/-- Outcome of promoting a wait-queue head via `addQueue`: either the new
running entry, or the thrown error's message.  `addQueue`'s lookups and the
process spawn are external collaborators, so promotion is a parameter of the
`checkQueue` model. -/
inductive PromotionResult where
  | ok (item : RunningQueueItem)
  | err (msg : String)
deriving Repr

/-- `checkQueue` (source lines 207-240) paired with the flag "a gate ticket
was acquired".  The guard returns before `getExecution` when the running
queue is at or over `concurrentEncodeNum` or the wait queue is empty.
Otherwise the head of `waitQueue` is shifted and promoted; on promotion
failure the error event is emitted and `finalize` runs for the shifted id. -/
def checkQueue (st : EncodeState) (promote : EncodeQueueItem → PromotionResult) :
    EncodeState × Bool :=
  if (st.runningQueue.length : Int) ≥ st.concurrentEncodeNum ∨ st.waitQueue.length = 0 then
    (st, false)
  else
    match st.waitQueue with
    | [] => (st, true)
    | encodeProgram :: rest =>
      match promote encodeProgram with
      | PromotionResult.ok item =>
        ({ st with waitQueue := rest, runningQueue := st.runningQueue ++ [item] }, true)
      | PromotionResult.err _ =>
        ((finalize { st with waitQueue := rest } encodeProgram.encodeId).st, true)

/-- The record passed to `emitFinishEncode` (source lines 402-415). -/
structure FinishEncodeInfo where
  recordedId : Nat
  videoFileId : Nat
  parentDirName : String
  filePath : Option String
  fullOutputPath : Option String
  mode : String
  removeOriginal : Bool
deriving DecidableEq, Repr

/-- `path.basename` for slash-separated paths without a trailing slash
(Node's `path` module; only used on paths the manager itself built). -/
def pathBasename (p : String) : String :=
  (p.splitOn "/").getLastD p

/-- `path.join` for the simple two-segment case used by the exit handler. -/
def pathJoin (a b : String) : String :=
  a ++ "/" ++ b

/-- Observable effects of the `exit` handler. -/
structure ExitOutcome where
  fatalLogged : Bool
  emitFinish : Option FinishEncodeInfo
  deletesOutputFile : Option String
  emitError : Bool
  callsFinalize : Bool
deriving Repr

/-- The `exit` handler installed by `addQueue` (source lines 372-435).
`queueItem` and `outputFilePath` are the values captured by the closure;
`runningQueue` and `waitQueue` are the manager's state when the handler
runs; `code` is the exit code (`none` when the process died on a signal).
Branches in source order: absent running entry (fatal log), `isCanceld`,
`code !== 0`, success.  `isError` stays `true` on the first three branches,
so they all delete the non-null output file and emit the error event; every
branch ends in `finalize`. -/
def onProcessExit (runningQueue : List RunningQueueItem) (waitQueue : List EncodeQueueItem)
    (queueItem : EncodeQueueItem) (outputFilePath : Option String) (code : Option Int) :
    ExitOutcome :=
  match getRunnginQueueItem runningQueue queueItem.encodeId with
  | none =>
    { fatalLogged := true, emitFinish := none,
      deletesOutputFile := outputFilePath, emitError := true, callsFinalize := true }
  | some encodingQueueItem =>
    if encodingQueueItem.isCanceld then
      { fatalLogged := false, emitFinish := none,
        deletesOutputFile := outputFilePath, emitError := true, callsFinalize := true }
    else if code ≠ some 0 then
      { fatalLogged := false, emitFinish := none,
        deletesOutputFile := outputFilePath, emitError := true, callsFinalize := true }
    else
      let fileName := outputFilePath.map pathBasename
      let removeOriginal :=
        if queueItem.removeOriginal = true ∧
            hasSamVideoFileIdItem runningQueue waitQueue queueItem.sourceVideoFileId = true then
          false
        else
          queueItem.removeOriginal
      { fatalLogged := false,
        emitFinish := some
          { recordedId := queueItem.recordedId,
            videoFileId := queueItem.sourceVideoFileId,
            parentDirName := queueItem.parentDir,
            filePath :=
              match outputFilePath, fileName with
              | none, _ => none
              | some _, none => none
              | some _, some fn =>
                match queueItem.directory with
                | none => some fn
                | some d => some (pathJoin d fn),
            fullOutputPath := outputFilePath,
            mode := queueItem.mode,
            removeOriginal := removeOriginal },
        deletesOutputFile := none, emitError := false, callsFinalize := true }

/-- The deadline timer `addQueue` installs on the new running entry
(source lines 355-358): a `setTimeout` whose callback cancels the job. -/
structure DeadlineTimer where
  delayMs : Rat
  cancelTarget : Nat
deriving DecidableEq, Repr

/-- The `setTimeout` call of `addQueue`.  `duration` is the value of the
recording's `duration` field.  Modelled from the spec: the `Recorded` entity
(`IRecordedDB.findId`) is not under `src/`; the spec gives its `duration`
field in seconds.  The delay handed to `setTimeout` is
`recorded.duration * (encodeCmd.rate ?? DEFAULT_TIMEOUT_RATE)`, and
`setTimeout` interprets its delay argument in milliseconds. -/
def installDeadlineTimer (queueItem : EncodeQueueItem) (duration : Rat) (rate : Option Rat) :
    DeadlineTimer :=
  { delayMs := duration * (match rate with | none => DEFAULT_TIMEOUT_RATE | some r => r),
    cancelTarget := queueItem.encodeId }

/-- Wall-clock seconds after which a `setTimeout`-based timer fires:
its millisecond delay divided by 1000. -/
def firesAfterSeconds (t : DeadlineTimer) : Rat :=
  t.delayMs / 1000

/-! Concrete sample data for witnesses and counterexamples. -/

/-- A sample request with `removeOriginal` set. -/
def sampleOption : AddEncodeProgramOption :=
  { recordedId := 1, sourceVideoFileId := 7, mode := "mp4", parentDir := "recorded",
    directory := none, removeOriginal := true }

/-- Job A: encodeId 1, sourceVideoFileId 7, removeOriginal requested. -/
def qiA : EncodeQueueItem :=
  { toAddEncodeProgramOption := sampleOption, encodeId := 1 }

/-- Job A's running entry (not cancelled). -/
def runningA : RunningQueueItem :=
  { process := 100, encodeProgram := qiA, isCanceld := false, timerId := 11 }

/-- Job B: encodeId 2. -/
def qiB : EncodeQueueItem :=
  { toAddEncodeProgramOption := sampleOption, encodeId := 2 }

/-- Job B's running entry, cancelled. -/
def runningB : RunningQueueItem :=
  { process := 101, encodeProgram := qiB, isCanceld := true, timerId := 12 }

/-- Job C: encodeId 3. -/
def qiC : EncodeQueueItem :=
  { toAddEncodeProgramOption := sampleOption, encodeId := 3 }

/-- A state whose id counter sits at `Number.MAX_SAFE_INTEGER`. -/
def stWrap : EncodeState :=
  { lockId := none, exeQueue := [], concurrentEncodeNum := 1, waitQueue := [],
    runningQueue := [], idCnt := maxSafeInteger }

/-- A state whose configuration disables encoding (cap 0). -/
def stZero : EncodeState :=
  { lockId := none, exeQueue := [], concurrentEncodeNum := 0, waitQueue := [],
    runningQueue := [], idCnt := 1 }

/-- A saturated state: one running job against a cap of 1, one job waiting. -/
def stFull : EncodeState :=
  { lockId := none, exeQueue := [], concurrentEncodeNum := 1, waitQueue := [qiC],
    runningQueue := [runningA], idCnt := 4 }

/-- A state whose gate is held by "holder" with one ticket waiting. -/
def stHeld : EncodeState :=
  { lockId := some "holder", exeQueue := [⟨"w1", 2⟩], concurrentEncodeNum := 2,
    waitQueue := [], runningQueue := [], idCnt := 1 }

/-- A state whose gate is free with two tickets queued. -/
def stFree : EncodeState :=
  { lockId := none, exeQueue := [⟨"h1", 3⟩, ⟨"w2", 2⟩], concurrentEncodeNum := 2,
    waitQueue := [], runningQueue := [], idCnt := 1 }

/-- A sample ticket queue sorted by non-increasing priority. -/
def q0 : List ExeQueueData := [⟨"a", 3⟩, ⟨"b", 2⟩]

/-- A sample fresh ticket of priority 2. -/
def t0 : ExeQueueData := ⟨"c", 2⟩

/-- A promotion stub that always fails (the spawn threw). -/
def promoteFail : EncodeQueueItem → PromotionResult := fun _ => PromotionResult.err "spawn"

/-! Helper lemmas about the gate. -/

/-- The splice of `getExecution` places the new ticket right after the
maximal prefix of equal-or-higher-priority tickets. -/
theorem insertExeQueue_eq_takeWhile (t : ExeQueueData) (q : List ExeQueueData) :
    insertExeQueue t q
      = q.takeWhile (fun x => decide (t.priority ≤ x.priority)) ++
        t :: q.dropWhile (fun x => decide (t.priority ≤ x.priority)) := by
  induction q with
  | nil => simp [insertExeQueue]
  | cons a rest ih =>
    by_cases h : a.priority < t.priority
    · have hd : decide (t.priority ≤ a.priority) = false := decide_eq_false (not_le.mpr h)
      simp [insertExeQueue, h, List.takeWhile_cons, List.dropWhile_cons, hd]
    · have hd : decide (t.priority ≤ a.priority) = true := decide_eq_true (not_lt.mp h)
      simp [insertExeQueue, h, List.takeWhile_cons, List.dropWhile_cons, hd, ih]

/-- Everything in the spliced queue is the new ticket or an old occupant. -/
theorem mem_insertExeQueue {t x : ExeQueueData} {q : List ExeQueueData}
    (hx : x ∈ insertExeQueue t q) : x = t ∨ x ∈ q := by
  induction q with
  | nil =>
    simp [insertExeQueue] at hx
    exact Or.inl hx
  | cons a rest ih =>
    simp only [insertExeQueue] at hx
    by_cases h : a.priority < t.priority
    · rw [if_pos h] at hx
      exact List.mem_cons.mp hx
    · rw [if_neg h] at hx
      rcases List.mem_cons.mp hx with hx | hx
      · exact Or.inr (hx ▸ List.mem_cons_self a rest)
      · rcases ih hx with hx | hx
        · exact Or.inl hx
        · exact Or.inr (List.mem_cons_of_mem a hx)

/-- The splice preserves the non-increasing-priority ordering. -/
theorem insertExeQueue_pairwise {t : ExeQueueData} {q : List ExeQueueData}
    (hq : q.Pairwise (fun a b => b.priority ≤ a.priority)) :
    (insertExeQueue t q).Pairwise (fun a b => b.priority ≤ a.priority) := by
  induction q with
  | nil => simp [insertExeQueue]
  | cons a rest ih =>
    rcases List.pairwise_cons.mp hq with ⟨ha, hrest⟩
    simp only [insertExeQueue]
    by_cases h : a.priority < t.priority
    · rw [if_pos h]
      refine List.pairwise_cons.mpr ⟨?_, hq⟩
      intro x hx
      rcases List.mem_cons.mp hx with hx | hx
      · subst hx; exact le_of_lt h
      · exact le_trans (ha x hx) (le_of_lt h)
    · rw [if_neg h]
      refine List.pairwise_cons.mpr ⟨?_, ih hrest⟩
      intro x hx
      rcases mem_insertExeQueue hx with hx | hx
      · subst hx; exact not_lt.mp h
      · exact ha x hx

/-- When the lock is free (or the caller holds it), `unLockExecution` pops
the queue head and hands it the lock. -/
theorem unLockExecution_grants_head (st : EncodeState) (exeId : String) (hd : ExeQueueData)
    (rest : List ExeQueueData) (hq : st.exeQueue = hd :: rest)
    (hl : st.lockId = none ∨ st.lockId = some exeId) :
    unLockExecution st exeId = { st with lockId := some hd.id, exeQueue := rest } := by
  rcases hl with hl | hl <;> simp [unLockExecution, hl, hq]

/-! Theorems settling the claims. -/

/-- Claim C1: at the failing input, job A is the only entry anywhere (its
own running entry, wait queue empty), `removeOriginal` was requested and the
process exited with code 0; yet the emitted finish event carries
`removeOriginal = false`, because `hasSamVideoFileIdItem` finds the
completing job's own running entry (which `finalize` removes only after the
emission).  The claim and the spec's interlock expect `true` here. -/
theorem c1_self_entry_coerces_removeOriginal :
    qiA.removeOriginal = true
    ∧ ([runningA].filter (fun q => q.encodeProgram.encodeId != qiA.encodeId)) = []
    ∧ (onProcessExit [runningA] [] qiA (some "/rec/a.mp4") (some 0)).emitFinish.map
        (fun e => e.removeOriginal) = some false :=
  ⟨rfl, rfl, rfl⟩

/-- Claim C2 counterexample: a cancelled running entry's exit DOES emit the
error event: `isError` stays true on the cancel branch and the error
emission sits inside the `isError` block. -/
theorem c2_counterexample :
    runningB.isCanceld = true
    ∧ (onProcessExit [runningB] [] qiB (some "/rec/b.mp4") none).emitError = true :=
  ⟨rfl, rfl⟩

/-- Claim C2 (amended): on exit of a cancelled running entry no finish event
is emitted, but the error event IS emitted, the non-null output file is
deleted, and finalize runs. -/
theorem c2_amended_cancelled_exit (runningQueue : List RunningQueueItem)
    (waitQueue : List EncodeQueueItem) (queueItem : EncodeQueueItem)
    (outputFilePath : Option String) (code : Option Int) (item : RunningQueueItem)
    (hfind : getRunnginQueueItem runningQueue queueItem.encodeId = some item)
    (hcancel : item.isCanceld = true) :
    onProcessExit runningQueue waitQueue queueItem outputFilePath code
      = { fatalLogged := false, emitFinish := none, deletesOutputFile := outputFilePath,
          emitError := true, callsFinalize := true } := by
  simp [onProcessExit, hfind, hcancel]

/-- Witness for C2's amended theorem at job B's cancelled entry. -/
theorem c2_amended_cancelled_exit_witness :
    (getRunnginQueueItem [runningB] qiB.encodeId = some runningB ∧ runningB.isCanceld = true)
    ∧ onProcessExit [runningB] [] qiB (some "/rec/b.mp4") none
      = { fatalLogged := false, emitFinish := none, deletesOutputFile := some "/rec/b.mp4",
          emitError := true, callsFinalize := true } :=
  ⟨⟨rfl, rfl⟩,
    c2_amended_cancelled_exit [runningB] [] qiB (some "/rec/b.mp4") none runningB rfl rfl⟩

/-- Claim C3 counterexample: with the job absent from the running queue the
handler does not stop after the fatal log: it still deletes the output file,
emits the error event, and calls finalize. -/
theorem c3_counterexample :
    getRunnginQueueItem [] qiC.encodeId = none
    ∧ (onProcessExit [] [] qiC (some "/rec/c.mp4") (some 0)).deletesOutputFile
        = some "/rec/c.mp4"
    ∧ (onProcessExit [] [] qiC (some "/rec/c.mp4") (some 0)).emitError = true
    ∧ (onProcessExit [] [] qiC (some "/rec/c.mp4") (some 0)).callsFinalize = true :=
  ⟨rfl, rfl, rfl, rfl⟩

/-- Claim C3 (amended): when the running entry is absent the handler logs the
fatal inconsistency and emits no finish event, but the cleanup branch still
runs: the non-null output file is deleted, the error event is emitted, and
finalize is called. -/
theorem c3_amended_absent_entry (runningQueue : List RunningQueueItem)
    (waitQueue : List EncodeQueueItem) (queueItem : EncodeQueueItem)
    (outputFilePath : Option String) (code : Option Int)
    (hfind : getRunnginQueueItem runningQueue queueItem.encodeId = none) :
    onProcessExit runningQueue waitQueue queueItem outputFilePath code
      = { fatalLogged := true, emitFinish := none, deletesOutputFile := outputFilePath,
          emitError := true, callsFinalize := true } := by
  simp [onProcessExit, hfind]

/-- Witness for C3's amended theorem at an empty running queue. -/
theorem c3_amended_absent_entry_witness :
    getRunnginQueueItem ([] : List RunningQueueItem) qiC.encodeId = none
    ∧ onProcessExit [] [] qiC (some "/rec/c.mp4") (some 0)
      = { fatalLogged := true, emitFinish := none, deletesOutputFile := some "/rec/c.mp4",
          emitError := true, callsFinalize := true } :=
  ⟨rfl, c3_amended_absent_entry [] [] qiC (some "/rec/c.mp4") (some 0) rfl⟩

/-- Claim C4 counterexample: with duration 60 (the spec gives the duration
field in seconds) and rate 2, the delay handed to `setTimeout` is 120, which
`setTimeout` reads as milliseconds: the timer fires after 3/25 of a second,
not after 60 × 2 = 120 seconds as the claim states. -/
theorem c4_counterexample :
    (installDeadlineTimer qiA 60 (some 2)).delayMs = 120
    ∧ firesAfterSeconds (installDeadlineTimer qiA 60 (some 2)) = 3 / 25
    ∧ (3 / 25 : Rat) ≠ 60 * 2 :=
  ⟨by norm_num [installDeadlineTimer],
    by norm_num [installDeadlineTimer, firesAfterSeconds],
    by norm_num⟩

/-- Claim C4 (amended): the deadline timer's `setTimeout` delay equals
duration × rate in MILLISECONDS (rate defaulting to
`DEFAULT_TIMEOUT_RATE = 4.0` when the profile omits it), i.e. the timer
fires after duration × rate / 1000 seconds, and on firing it invokes cancel
on the job's identifier. -/
theorem c4_amended_deadline (qi : EncodeQueueItem) (duration : Rat) (rate : Option Rat) :
    (installDeadlineTimer qi duration rate).delayMs
        = duration * (rate.getD DEFAULT_TIMEOUT_RATE)
    ∧ (installDeadlineTimer qi duration none).delayMs = duration * 4
    ∧ firesAfterSeconds (installDeadlineTimer qi duration rate)
        = duration * (rate.getD DEFAULT_TIMEOUT_RATE) / 1000
    ∧ (installDeadlineTimer qi duration rate).cancelTarget = qi.encodeId := by
  cases rate <;>
    simp [installDeadlineTimer, firesAfterSeconds, DEFAULT_TIMEOUT_RATE, Option.getD]

/-- Claim C5 counterexample: with the counter at `Number.MAX_SAFE_INTEGER`,
that push returns the maximum identifier, and the NEXT push returns 1, not 0
(the counter is reset to 0 and then incremented before the next push reads
it). -/
theorem c5_counterexample :
    (push stWrap sampleOption).result = Except.ok maxSafeInteger
    ∧ (push (push stWrap sampleOption).st sampleOption).result = Except.ok 1
    ∧ (1 : Nat) ≠ 0 :=
  ⟨rfl, rfl, by decide⟩

/-- Claim C5 (amended): after the push that returns
`Number.MAX_SAFE_INTEGER`, the counter is reset to 0 and immediately
incremented to 1, so the next successful push returns identifier 1;
identifier 0 is never allocated at the wrap. -/
theorem c5_amended_wrap_to_one (st : EncodeState) (addOption : AddEncodeProgramOption)
    (hc : 0 < st.concurrentEncodeNum) (hid : st.idCnt = maxSafeInteger) :
    (push st addOption).result = Except.ok maxSafeInteger
    ∧ (push st addOption).st.idCnt = 1
    ∧ (push (push st addOption).st addOption).result = Except.ok 1 := by
  have hc' : ¬ st.concurrentEncodeNum ≤ 0 := not_le.mpr hc
  simp [push, hc', hid]

/-- Witness for C5's amended theorem at the wrap state. -/
theorem c5_amended_wrap_to_one_witness :
    (0 < stWrap.concurrentEncodeNum ∧ stWrap.idCnt = maxSafeInteger)
    ∧ ((push stWrap sampleOption).result = Except.ok maxSafeInteger
      ∧ (push stWrap sampleOption).st.idCnt = 1
      ∧ (push (push stWrap sampleOption).st sampleOption).result = Except.ok 1) :=
  ⟨⟨by decide, rfl⟩, c5_amended_wrap_to_one stWrap sampleOption (by decide) rfl⟩

/-- Claim C6: on a ticket queue sorted by non-increasing priority,
`getExecution`'s splice puts the new ticket after all equal-or-higher
priority tickets and before the first strictly-lower one (FIFO within a
priority level), the queue stays sorted, and `unLockExecution` hands the
lock to the head of the ticket queue whenever the lock is free after the
release step. -/
theorem c6_gate_priority_order (q : List ExeQueueData) (t : ExeQueueData)
    (st : EncodeState) (exeId : String) (hd : ExeQueueData) (rest : List ExeQueueData)
    (hq : q.Pairwise (fun a b => b.priority ≤ a.priority))
    (hst : st.exeQueue = hd :: rest)
    (hl : st.lockId = none ∨ st.lockId = some exeId) :
    (insertExeQueue t q
        = q.takeWhile (fun x => decide (t.priority ≤ x.priority)) ++
          t :: q.dropWhile (fun x => decide (t.priority ≤ x.priority)))
    ∧ (insertExeQueue t q).Pairwise (fun a b => b.priority ≤ a.priority)
    ∧ unLockExecution st exeId = { st with lockId := some hd.id, exeQueue := rest } :=
  ⟨insertExeQueue_eq_takeWhile t q, insertExeQueue_pairwise hq,
    unLockExecution_grants_head st exeId hd rest hst hl⟩

/-- Witness for C6 at a concrete sorted queue and a free gate. -/
theorem c6_gate_priority_order_witness :
    (q0.Pairwise (fun a b => b.priority ≤ a.priority)
      ∧ stFree.exeQueue = ⟨"h1", 3⟩ :: [⟨"w2", 2⟩]
      ∧ (stFree.lockId = none ∨ stFree.lockId = some "z"))
    ∧ ((insertExeQueue t0 q0
        = q0.takeWhile (fun x => decide (t0.priority ≤ x.priority)) ++
          t0 :: q0.dropWhile (fun x => decide (t0.priority ≤ x.priority)))
      ∧ (insertExeQueue t0 q0).Pairwise (fun a b => b.priority ≤ a.priority)
      ∧ unLockExecution stFree "z"
          = { stFree with lockId := some "h1", exeQueue := [⟨"w2", 2⟩] }) :=
  ⟨⟨by decide, rfl, Or.inl rfl⟩,
    c6_gate_priority_order q0 t0 stFree "z" ⟨"h1", 3⟩ [⟨"w2", 2⟩] (by decide) rfl (Or.inl rfl)⟩

/-- Claim C7 counterexample: the error thrown when the cap is ≤ 0 is the
string "CncurrentEncodeNumIsZero" (a typo in the source), not
"ConcurrentEncodeNumIsZero" as the claim names it. -/
theorem c7_counterexample :
    (push stZero sampleOption).result = Except.error "CncurrentEncodeNumIsZero"
    ∧ "CncurrentEncodeNumIsZero" ≠ "ConcurrentEncodeNumIsZero" :=
  ⟨rfl, by decide⟩

/-- Claim C7 (amended): when the configured cap is ≤ 0, `push` fails with
the error whose message is "CncurrentEncodeNumIsZero" before acquiring a
gate ticket, leaving the whole state (wait queue, running queue, ticket
queue, lock and id counter) unchanged. -/
theorem c7_amended_push_guard (st : EncodeState) (addOption : AddEncodeProgramOption)
    (h : st.concurrentEncodeNum ≤ 0) :
    push st addOption
      = { result := Except.error "CncurrentEncodeNumIsZero", st := st,
          acquiredTicket := false } := by
  simp only [push]
  rw [if_pos h]

/-- Witness for C7's amended theorem at the cap-0 state. -/
theorem c7_amended_push_guard_witness :
    stZero.concurrentEncodeNum ≤ 0
    ∧ push stZero sampleOption
      = { result := Except.error "CncurrentEncodeNumIsZero", st := stZero,
          acquiredTicket := false } :=
  ⟨by decide, c7_amended_push_guard stZero sampleOption (by decide)⟩

/-- Claim C8: when the running queue already holds at least
`concurrentEncodeNum` entries or the wait queue is empty, `checkQueue`
returns before `getExecution`: no ticket is acquired and the state (wait
queue, running queue, ticket queue, lock) is returned unchanged. -/
theorem c8_checkQueue_guard_noop (st : EncodeState)
    (promote : EncodeQueueItem → PromotionResult)
    (h : (st.runningQueue.length : Int) ≥ st.concurrentEncodeNum ∨ st.waitQueue.length = 0) :
    checkQueue st promote = (st, false) := by
  simp only [checkQueue]
  rw [if_pos h]

/-- Witness for C8 at the saturated state. -/
theorem c8_checkQueue_guard_noop_witness :
    ((stFull.runningQueue.length : Int) ≥ stFull.concurrentEncodeNum
      ∨ stFull.waitQueue.length = 0)
    ∧ checkQueue stFull promoteFail = (stFull, false) :=
  ⟨Or.inl (by decide), c8_checkQueue_guard_noop stFull promoteFail (Or.inl (by decide))⟩

/-- Claim C9: `unLockExecution` called with an id different from the current
holder's changes nothing: the holder stays and no ticket is popped. -/
theorem c9_unlock_by_nonholder (st : EncodeState) (holder exeId : String)
    (hl : st.lockId = some holder) (hne : holder ≠ exeId) :
    unLockExecution st exeId = st := by
  obtain ⟨l, e, c, w, r, i⟩ := st
  simp only at hl
  subst hl
  simp [unLockExecution, hne]

/-- Witness for C9 at the held-gate state. -/
theorem c9_unlock_by_nonholder_witness :
    (stHeld.lockId = some "holder" ∧ "holder" ≠ "b")
    ∧ unLockExecution stHeld "b" = stHeld :=
  ⟨⟨rfl, by decide⟩, c9_unlock_by_nonholder stHeld "holder" "b" rfl (by decide)⟩

/-- Claim C10: `finalize` on a job id with no matching running entry leaves
the running queue unchanged (the filter removes nothing), clears no timer,
and still schedules a queue re-check on the next tick. -/
theorem c10_finalize_unknown_id (st : EncodeState) (encodeId : Nat)
    (h : getRunnginQueueItem st.runningQueue encodeId = none) :
    finalize st encodeId
      = { st := st, clearedTimerId := none, scheduledCheckQueue := true } := by
  have h' : st.runningQueue.find? (fun q => q.encodeProgram.encodeId == encodeId) = none := h
  have hall := List.find?_eq_none.mp h'
  have hfilter : st.runningQueue.filter (fun q => q.encodeProgram.encodeId != encodeId)
      = st.runningQueue := by
    apply List.filter_eq_self.mpr
    intro q hq
    have hb : (q.encodeProgram.encodeId == encodeId) = false := by
      simpa using hall q hq
    simp [bne, hb]
  simp [finalize, h, hfilter]

/-- Witness for C10: finalizing id 99, which is not running in `stFull`. -/
theorem c10_finalize_unknown_id_witness :
    getRunnginQueueItem stFull.runningQueue 99 = none
    ∧ finalize stFull 99
      = { st := stFull, clearedTimerId := none, scheduledCheckQueue := true } :=
  ⟨rfl, c10_finalize_unknown_id stFull 99 rfl⟩

end EncodeManage
